import Mathlib

/-!
Verification of the synheart-wear vendor-connector services against their
natural-language specification.

The Python sources are shallowly embedded:
* `src/services/garmin-cloud/connector.py` — `GarminConnector.verify_webhook`,
  `GarminConnector.parse_event`, `GarminConnector.fetch_data`;
* `src/services/whoop-cloud/api.py` — the backfill entry point `pull_data`;
* `src/services/garmin-cloud/api_local.py` — `MockSyncState.update_cursor`.

Python dicts become association lists, JSON values a small `Json` inductive,
raised exceptions `Except` errors, and wall-clock reads (`datetime.now`)
explicit parameters.  Python truthiness (`or`, `if not x`) is modelled
explicitly where the source relies on it.
-/

namespace SynheartWear

/-- Association-list lookup: first entry whose key matches.  Models reading a
Python `dict` (whose keys are unique, so first-match agrees with the dict). -/
def alookup {α : Type} : List (String × α) → String → Option α
  | [], _ => none
  | (k, v) :: rest, key => if k = key then some v else alookup rest key

/-- Association-list insert with dict semantics: replace the value at an
existing key in place, otherwise append at the end (Python dicts preserve
insertion order). -/
def dinsert {α : Type} : List (String × α) → String → α → List (String × α)
  | [], key, v => [(key, v)]
  | (k, w) :: rest, key, v =>
    if k = key then (key, v) :: rest else (k, w) :: dinsert rest key v

theorem alookup_dinsert_self {α : Type} (l : List (String × α)) (k : String) (v : α) :
    alookup (dinsert l k v) k = some v := by
  induction l with
  | nil => simp [dinsert, alookup]
  | cons hd tl ih =>
    obtain ⟨k', w⟩ := hd
    by_cases h : k' = k
    · simp [dinsert, h, alookup]
    · simp [dinsert, h, alookup, ih]

theorem alookup_dinsert_ne {α : Type} (l : List (String × α)) (k k' : String) (v : α)
    (h : k ≠ k') : alookup (dinsert l k v) k' = alookup l k' := by
  induction l with
  | nil => simp [dinsert, alookup, h]
  | cons hd tl ih =>
    obtain ⟨k0, w⟩ := hd
    by_cases h0 : k0 = k
    · subst h0
      simp [dinsert, alookup, h]
    · simp [dinsert, h0, alookup]
      by_cases h1 : k0 = k'
      · simp [h1]
      · simp [h1, ih]

/-- JSON values, as produced by Python's `json.loads`.  Numbers are modelled as
integers (the payloads relevant here carry ids and counts). -/
inductive Json where
  | null
  | bool (b : Bool)
  | num (n : Int)
  | str (s : String)
  | arr (items : List Json)
  | obj (fields : List (String × Json))

/-- Python truthiness of a JSON value (`None`, `False`, `0`, `""`, `[]`, `{}`
are falsy). -/
def pyTruthy : Json → Bool
  | .null => false
  | .bool b => b
  | .num n => n != 0
  | .str s => s ≠ ""
  | .arr items => !items.isEmpty
  | .obj fields => !fields.isEmpty

/-- Python `len` on a JSON value: defined for strings, lists and dicts, a
`TypeError` (modelled as `none`) otherwise. -/
def pyLen : Json → Option Nat
  | .str s => some s.length
  | .arr items => some items.length
  | .obj fields => some fields.length
  | _ => none

/-- ASCII lower-casing of one character, as `str.lower()` does on ASCII. -/
def pyLowerChar (c : Char) : Char :=
  if 'A' ≤ c ∧ c ≤ 'Z' then Char.ofNat (c.toNat + 32) else c

/-- Models `str.lower()` (restricted to ASCII, which is all the source feeds it). -/
def pyLower (s : String) : String := ⟨s.data.map pyLowerChar⟩

/-- Whitespace stripped by Python's `int(str)` conversion. -/
def pyIsSpace (c : Char) : Bool :=
  c = ' ' || c = '\t' || c = '\n' || c = '\x0d' || c = '\x0b' || c = '\x0c'

/-- Digit scanner for `int(str)`: digits with single underscores allowed
strictly between digits.  `acc` is the value of the digits already read. -/
def pyDigits : List Char → Nat → Option Nat
  | [], acc => some acc
  | '_' :: rest, acc =>
    match rest with
    | [] => none
    | c :: rest' =>
      if c.isDigit then pyDigits rest' (acc * 10 + (c.toNat - 48)) else none
  | c :: rest, acc =>
    if c.isDigit then pyDigits rest (acc * 10 + (c.toNat - 48)) else none

/-- Python `int(s)` on a string: optional surrounding whitespace, optional
sign, then ASCII digits with optional single underscores between digits.
Returns `none` where CPython raises `ValueError`. -/
def pyInt : String → Option Int := fun s =>
  let core := ((s.toList.dropWhile pyIsSpace).reverse.dropWhile pyIsSpace).reverse
  match core with
  | [] => none
  | '+' :: c :: rest =>
    if c.isDigit then (pyDigits rest (c.toNat - 48)).map Int.ofNat else none
  | '-' :: c :: rest =>
    if c.isDigit then (pyDigits rest (c.toNat - 48)).map (fun n => -(Int.ofNat n))
    else none
  | c :: rest =>
    if c.isDigit then (pyDigits rest (c.toNat - 48)).map Int.ofNat else none

/-- Exceptions the embedded code can raise.  `webhook` carries the
`WebhookError(message, vendor=...)` payload; `rateLimited` and `vendorAPI`
model `RateLimitError` / `VendorAPIError`; the rest are Python builtins. -/
inductive PyErr where
  | webhook (message : String) (vendor : String)
  | rateLimited (message : String) (vendor : String) (retryAfter : Int)
  | vendorAPI (message : String) (vendor : String) (statusCode : Nat)
  | valueError
  | typeError
  | keyError
  | attributeError

/- ===================== GarminConnector.verify_webhook ===================== -/

/-- State of a `GarminConnector` relevant to webhook verification:
whether `self.webhook_verifier` is set (truthy), and the behaviour of
`webhook_verifier.verify_sha256_hash` (an external collaborator, abstracted
as a function of the raw body and the signature header value). -/
structure GarminConn where
  hasVerifier : Bool
  verifySha256 : List Nat → String → Except PyErr Bool

/-- Python `x or y` over optional header values: `none` and `""` are falsy. -/
def strTruthy : Option String → Option String
  | some s => if s = "" then none else some s
  | none => none

/-- First truthy value in a list of optional strings. -/
def firstTruthy : List (Option String) → Option String
  | [] => none
  | o :: rest =>
    match strTruthy o with
    | some s => some s
    | none => firstTruthy rest

/-- Embeds `GarminConnector.verify_webhook` (connector.py lines 40-81): requires a
configured verifier, then takes the first truthy signature among
`Garmin-Signature`, `garmin-signature`, `X-Gfit-Signature`,
`x-gfit-signature`; raises `WebhookError("Missing webhook signature header")`
when all are absent or empty, and otherwise delegates to
`verify_sha256_hash`. -/
def verify_webhook (c : GarminConn) (headers : List (String × String))
    (rawBody : List Nat) : Except PyErr Bool :=
  if !c.hasVerifier then
    .error (.webhook "Webhook verifier not configured" "garmin")
  else
    match firstTruthy [alookup headers "Garmin-Signature",
        alookup headers "garmin-signature",
        alookup headers "X-Gfit-Signature",
        alookup headers "x-gfit-signature"] with
    | none => .error (.webhook "Missing webhook signature header" "garmin")
    | some signature => c.verifySha256 rawBody signature

/- ===================== GarminConnector.parse_event ===================== -/

/-- The dict returned by `GarminConnector.parse_event`. -/
structure GarminEvent where
  user_id : Json
  type : String
  id : Option Json
  trace_id : Json
  raw_data : Json

/-- Computes `resource_id or data["userId"]` — Python `or` over the optional
resource id and the user id value. -/
def traceOf (resourceId : Option Json) (userId : Json) : Json :=
  match resourceId with
  | some v => if pyTruthy v then v else userId
  | none => userId

/-- Evaluates `key in data and len(data[key]) > 0` for a parsed dict:
`ok (some v)` when the key holds a sized, non-empty value `v`, `ok none`
when absent or empty, `error typeError` when `len` raises. -/
def populated (fields : List (String × Json)) (key : String) :
    Except PyErr (Option Json) :=
  match alookup fields key with
  | none => .ok none
  | some v =>
    match pyLen v with
    | none => .error .typeError
    | some n => .ok (if n > 0 then some v else none)

/-- Takes `v[0]`, requires it to be a dict, computes the event type via
`typeOf` and reads the resource id at `idKey` with `.get` (absent ⇒ `none`).
Non-dict first items raise as CPython would (`.get` on a non-dict ⇒
`AttributeError`; indexing a dict with `0` ⇒ `KeyError`). -/
def firstItemResource (v : Json)
    (typeOf : List (String × Json) → Except PyErr String) (idKey : String) :
    Except PyErr (String × Option Json) :=
  match v with
  | .arr (.obj sf :: _) =>
    match typeOf sf with
    | .ok t => .ok (t, alookup sf idKey)
    | .error e => .error e
  | .arr _ => .error .attributeError
  | .str _ => .error .attributeError
  | .obj _ => .error .keyError
  | _ => .error .typeError

/-- Computes `f"{summary.get('dataType', 'daily').lower()}.updated"`: the `dataType`
field defaults to `"daily"`; `.lower()` on a non-string raises
`AttributeError`. -/
def summaryType (sf : List (String × Json)) : Except PyErr String :=
  match (alookup sf "dataType").getD (Json.str "daily") with
  | .str t => .ok (pyLower t ++ ".updated")
  | _ => .error .attributeError

/-- The `summaries` / `activities` / `sleeps` elif-chain of `parse_event`
(connector.py lines 134-151), in source order, yielding the event type and
the optional resource id; `("unknown", none)` when no recognized collection
is populated. -/
def pickResource (fields : List (String × Json)) :
    Except PyErr (String × Option Json) :=
  match populated fields "summaries" with
  | .error e => .error e
  | .ok (some v) => firstItemResource v summaryType "summaryId"
  | .ok none =>
    match populated fields "activities" with
    | .error e => .error e
    | .ok (some v) =>
      firstItemResource v (fun _ => .ok "activity.updated") "activityId"
    | .ok none =>
      match populated fields "sleeps" with
      | .error e => .error e
      | .ok (some v) =>
        firstItemResource v (fun _ => .ok "sleep.updated") "sleepId"
      | .ok none => .ok ("unknown", none)

/-- Embeds `GarminConnector.parse_event` (connector.py lines 83-159).  The input is
the result of `json.loads` on the raw body (`none` models a JSON decode
failure, which the source converts to a `WebhookError`); a non-dict top level
ends in an unhandled Python exception before a dict could be returned, which
the embedding collapses to `typeError`. -/
def parse_event (raw : Option Json) : Except PyErr GarminEvent :=
  match raw with
  | none => .error (.webhook "Invalid JSON payload" "garmin")
  | some (.obj fields) =>
    match alookup fields "userId" with
    | none => .error (.webhook "Missing required field: userId" "garmin")
    | some uid =>
      match pickResource fields with
      | .error e => .error e
      | .ok (ty, rid) =>
        .ok { user_id := uid, type := ty, id := rid,
              trace_id := traceOf rid uid, raw_data := .obj fields }
  | some _ => .error .typeError

/- ===================== GarminConnector.fetch_data ===================== -/

/-- The vendor's HTTP response as seen by `fetch_data`: the status code, the
raw `Retry-After` header if any, the response text, and the decoded JSON
payload (the body `response.json()` would return). -/
structure HttpResponse where
  status : Nat
  retryAfter : Option String
  text : String
  body : Json

/-- The response-classifying tail of `GarminConnector.fetch_data`
(connector.py lines 201-236).  `pre` is the combined outcome of the steps
before the HTTP call (`check_rate_limit` and `refresh_if_needed`, both
external collaborators that either succeed or raise); `pulls` is the trace of
`token_store.update_last_pull` invocations, to which a `(vendor, user)` entry
is appended exactly where the source calls it.  On 429 the source computes
`int(response.headers.get("Retry-After", 60))`, which raises `ValueError`
when the header is present but not an integer literal. -/
def fetch_data (pre : Except PyErr Unit) (userId : String) (resp : HttpResponse)
    (pulls : List (String × String)) :
    Except PyErr Json × List (String × String) :=
  match pre with
  | .error e => (.error e, pulls)
  | .ok _ =>
    if resp.status = 429 then
      match resp.retryAfter with
      | none =>
        (.error (.rateLimited "Garmin API rate limit exceeded" "garmin" 60), pulls)
      | some s =>
        match pyInt s with
        | some n =>
          (.error (.rateLimited "Garmin API rate limit exceeded" "garmin" n), pulls)
        | none => (.error .valueError, pulls)
    else if resp.status = 204 then
      (.ok (Json.arr []), pulls)
    else if resp.status ≠ 200 then
      (.error (.vendorAPI
        ("Garmin API error: " ++ toString resp.status ++ " " ++ resp.text)
        "garmin" resp.status), pulls)
    else
      (.ok resp.body, pulls ++ [("garmin", userId)])

/- ===================== MockSyncState.update_cursor ===================== -/

/-- A sync cursor record (api_local.py `SyncCursor`).  `records_synced` is a
Python `int`. -/
structure SyncCursor where
  vendor : String
  user_id : String
  last_sync_ts : String
  records_synced : Int
  last_resource_id : Option String
  created_at : String
  updated_at : String

/-- The cursor store: `MockSyncState.cursors`, a dict keyed by
`"{vendor}:{user_id}"`. -/
def CursorStore : Type := List (String × SyncCursor)

/-- `MockSyncState.update_cursor` (api_local.py lines 178-197): accumulates
`records_synced` onto the existing cursor (0 when absent), preserves
`created_at` on updates and sets it to `now` on creation, stamps
`updated_at := now`, and stores the cursor under `"{vendor}:{user_id}"`.
The wall-clock read `datetime.now(timezone.utc).isoformat()` is the `now`
parameter. -/
def update_cursor (store : CursorStore) (vendor userId lastSyncTs : String)
    (recordsSynced : Int) (lastResourceId : Option String) (now : String) :
    SyncCursor × CursorStore :=
  let key := vendor ++ ":" ++ userId
  let existing := alookup store key
  let total := (match existing with
    | some c => c.records_synced
    | none => 0) + recordsSynced
  let cursor : SyncCursor :=
    { vendor := vendor, user_id := userId, last_sync_ts := lastSyncTs,
      records_synced := total, last_resource_id := lastResourceId,
      created_at := (match existing with
        | some c => c.created_at
        | none => now),
      updated_at := now }
  (cursor, dinsert store key cursor)

/- ===================== whoop-cloud pull_data ===================== -/

/-- One entry of the per-resource `results` dict built by `pull_data`:
either `{"records": count, "data": records}` or `{"error": message}`. -/
inductive PullEntry where
  | ok (records : Nat) (data : List Json)
  | err (msg : String)

/-- Outcomes of the four `whoop.fetch_<type>_collection` calls (external
collaborators), composed with `data.get("records", [])`: per resource type,
either the fetched record list or the message of the `RateLimitError` /
`CloudConnectorError` the call raised. -/
structure PullEnv where
  fetch : String → Except String (List Json)

/-- The recognized resource types of the `pull_data` dispatch. -/
def validResourceType (rt : String) : Bool :=
  rt = "recovery" || rt = "sleep" || rt = "workout" || rt = "cycle"

/-- Models `if not resource_types: resource_types = [...]` (api.py lines
501-502), defaulting to the four recognized resource types. -/
def resolveTypes (resourceTypes : List String) : List String :=
  if resourceTypes.isEmpty then ["recovery", "sleep", "workout", "cycle"]
  else resourceTypes

/-- Start-point resolution of `pull_data` (api.py lines 504-517), returning
`(since, pull_type)`.  `since` is falsy in Python when `None` or `""`;
`now7` is `datetime.now(timezone.utc) - timedelta(days=7)` in ISO form. -/
def resolveSince (cursors : CursorStore) (key : String) (since : Option String)
    (now7 : String) : String × String :=
  let fromCursor :=
    match alookup cursors key with
    | some c => (c.last_sync_ts, "incremental")
    | none => (now7, "initial")
  match since with
  | none => fromCursor
  | some s => if s = "" then fromCursor else (s, "manual")

/-- The body of the per-resource-type loop (api.py lines 524-549): a
recognized type is fetched and yields a count/data entry or captures the
raised error's message; an unrecognized type records
`{"error": "Unknown resource type"}` without fetching. -/
def entryFor (env : PullEnv) (rt : String) : PullEntry :=
  if validResourceType rt then
    match env.fetch rt with
    | .ok records => .ok records.length records
    | .error e => .err e
  else .err "Unknown resource type"

/-- The contribution of one result entry to `total_records`: only successful
fetches count. -/
def entryCount : PullEntry → Nat
  | .ok n _ => n
  | .err _ => 0

/-- The loop of `pull_data` (api.py lines 520-549): builds the `results` dict
and accumulates `total_records`. -/
def pullLoop (env : PullEnv) (types : List String)
    (acc : List (String × PullEntry)) (total : Nat) :
    List (String × PullEntry) × Nat :=
  match types with
  | [] => (acc, total)
  | rt :: rest =>
    let e := entryFor env rt
    pullLoop env rest (dinsert acc rt e) (total + entryCount e)

/-- The response body of `pull_data`. -/
structure PullResult where
  status : String
  pull_type : String
  since : String
  pulled_at : String
  total_records : Nat
  results : List (String × PullEntry)

/-- The backfill entry point `pull_data` (api.py lines 473-568): resolves the
start point and `pull_type`, fetches each resolved resource type
independently, then advances the sync cursor with the wall-clock time `now`
captured before the loop and `records_synced := total_records`.
The whoop service's `SyncState.update_cursor` itself is not under `src/`;
it is modelled from the spec's `SyncCursorEngine.advance` contract, which the
in-repo `MockSyncState.update_cursor` implements verbatim, so the same
`update_cursor` embedding is used. -/
def pull_data (env : PullEnv) (cursors : CursorStore) (userId : String)
    (resourceTypes : List String) (since : Option String) (now7 now : String) :
    PullResult × CursorStore :=
  let types := resolveTypes resourceTypes
  let key := "whoop" ++ ":" ++ userId
  let sp := resolveSince cursors key since now7
  let rs := pullLoop env types [] 0
  let upd := update_cursor cursors "whoop" userId now (Int.ofNat rs.2) none now
  ({ status := "success", pull_type := sp.2, since := sp.1, pulled_at := now,
     total_records := rs.2, results := rs.1 }, upd.2)

/- ===================== helper lemmas ===================== -/

/-- Sum of the record counts of the resource types whose fetch succeeded
(failed or unrecognized types contribute 0 through `entryCount`). -/
def successTotal (env : PullEnv) (types : List String) : Nat :=
  (types.map (fun rt => entryCount (entryFor env rt))).sum

theorem pullLoop_lookup_not_mem (env : PullEnv) (types : List String)
    (acc : List (String × PullEntry)) (total : Nat) (rt : String)
    (h : rt ∉ types) :
    alookup (pullLoop env types acc total).1 rt = alookup acc rt := by
  induction types generalizing acc total with
  | nil => rfl
  | cons t ts ih =>
    simp only [List.mem_cons, not_or] at h
    obtain ⟨hne, hnot⟩ := h
    simp only [pullLoop]
    rw [ih _ _ hnot, alookup_dinsert_ne _ _ _ _ (Ne.symm hne)]

theorem pullLoop_lookup_mem (env : PullEnv) (types : List String)
    (acc : List (String × PullEntry)) (total : Nat) (rt : String)
    (h : rt ∈ types) :
    alookup (pullLoop env types acc total).1 rt = some (entryFor env rt) := by
  induction types generalizing acc total with
  | nil => cases h
  | cons t ts ih =>
    by_cases hmem : rt ∈ ts
    · simpa only [pullLoop] using ih _ _ hmem
    · have heq : rt = t := by
        rcases List.mem_cons.mp h with h1 | h1
        · exact h1
        · exact absurd h1 hmem
      subst heq
      simp only [pullLoop]
      rw [pullLoop_lookup_not_mem _ _ _ _ _ hmem, alookup_dinsert_self]

theorem pullLoop_total (env : PullEnv) (types : List String)
    (acc : List (String × PullEntry)) (total : Nat) :
    (pullLoop env types acc total).2 = total + successTotal env types := by
  induction types generalizing acc total with
  | nil => simp [pullLoop, successTotal]
  | cons t ts ih =>
    simp only [pullLoop, successTotal, List.map_cons, List.sum_cons]
    rw [ih]
    simp only [successTotal]
    omega

theorem traceOf_ne_null (resourceId : Option Json) (userId : Json)
    (h : userId ≠ Json.null) : traceOf resourceId userId ≠ Json.null := by
  cases resourceId with
  | none => simpa [traceOf] using h
  | some v =>
    simp only [traceOf]
    by_cases hv : pyTruthy v
    · simp only [hv, if_true]
      cases v <;> simp [pyTruthy] at hv ⊢
    · simpa [hv] using h

/- ===================== Claim C1 ===================== -/

/-- C1: a headers dict containing none of the recognized signature headers
(`Garmin-Signature` / `garmin-signature` / `X-Gfit-Signature` /
`x-gfit-signature`) makes `GarminConnector.verify_webhook` raise (not return
false): the raised failure is the missing-signature `WebhookError`, carrying
the vendor identifier `"garmin"`.  (The connector is assumed to have its
webhook verifier configured, as the service constructs it.) -/
theorem garmin_verify_webhook_missing_signature (c : GarminConn)
    (headers : List (String × String)) (rawBody : List Nat)
    (hv : c.hasVerifier = true)
    (h1 : alookup headers "Garmin-Signature" = none)
    (h2 : alookup headers "garmin-signature" = none)
    (h3 : alookup headers "X-Gfit-Signature" = none)
    (h4 : alookup headers "x-gfit-signature" = none) :
    verify_webhook c headers rawBody =
      .error (.webhook "Missing webhook signature header" "garmin") := by
  simp [verify_webhook, hv, firstTruthy, strTruthy, h1, h2, h3, h4]

/-- Witness for C1 at a concrete connector and a headers dict with no
signature header. -/
theorem garmin_verify_webhook_missing_signature_witness :
    verify_webhook ⟨true, fun _ _ => .ok true⟩
      [("Content-Type", "application/json")] [123] =
      .error (.webhook "Missing webhook signature header" "garmin") :=
  garmin_verify_webhook_missing_signature ⟨true, fun _ _ => .ok true⟩
    [("Content-Type", "application/json")] [123] rfl rfl rfl rfl rfl

/- ===================== Claim C3 ===================== -/

/-- C3: `GarminConnector.parse_event` selects the first populated resource
collection in the fixed order summaries, activities, sleeps; the event type
is the lower-cased resource kind followed by `".updated"` (for summaries the
kind is the first summary's `dataType`, defaulting to `"daily"`); when no
recognized collection is populated the parse still succeeds with event type
`"unknown"`; and the concrete scenario body
`{"userId":"u1","summaries":[{"summaryId":"d-1","dataType":"DAILY"}]}`
normalizes to user `"u1"`, type `"daily.updated"`, resource id `"d-1"`,
trace id `"d-1"`. -/
theorem garmin_parse_event_priority :
    (parse_event (some (.obj [("userId", .str "u1"),
        ("summaries", .arr [.obj [("summaryId", .str "d-1"),
          ("dataType", .str "DAILY")]])])) =
      .ok { user_id := .str "u1", type := "daily.updated",
            id := some (.str "d-1"), trace_id := .str "d-1",
            raw_data := .obj [("userId", .str "u1"),
              ("summaries", .arr [.obj [("summaryId", .str "d-1"),
                ("dataType", .str "DAILY")]])] }) ∧
    (∀ fields uid sf rest t,
      alookup fields "userId" = some uid →
      alookup fields "summaries" = some (.arr (.obj sf :: rest)) →
      alookup sf "dataType" = some (.str t) →
      parse_event (some (.obj fields)) =
        .ok { user_id := uid, type := pyLower t ++ ".updated",
              id := alookup sf "summaryId",
              trace_id := traceOf (alookup sf "summaryId") uid,
              raw_data := .obj fields }) ∧
    (∀ fields uid af rest,
      alookup fields "userId" = some uid →
      (alookup fields "summaries" = none ∨
        alookup fields "summaries" = some (.arr [])) →
      alookup fields "activities" = some (.arr (.obj af :: rest)) →
      parse_event (some (.obj fields)) =
        .ok { user_id := uid, type := "activity.updated",
              id := alookup af "activityId",
              trace_id := traceOf (alookup af "activityId") uid,
              raw_data := .obj fields }) ∧
    (∀ fields uid sf rest,
      alookup fields "userId" = some uid →
      (alookup fields "summaries" = none ∨
        alookup fields "summaries" = some (.arr [])) →
      (alookup fields "activities" = none ∨
        alookup fields "activities" = some (.arr [])) →
      alookup fields "sleeps" = some (.arr (.obj sf :: rest)) →
      parse_event (some (.obj fields)) =
        .ok { user_id := uid, type := "sleep.updated",
              id := alookup sf "sleepId",
              trace_id := traceOf (alookup sf "sleepId") uid,
              raw_data := .obj fields }) ∧
    (∀ fields uid,
      alookup fields "userId" = some uid →
      (alookup fields "summaries" = none ∨
        alookup fields "summaries" = some (.arr [])) →
      (alookup fields "activities" = none ∨
        alookup fields "activities" = some (.arr [])) →
      (alookup fields "sleeps" = none ∨
        alookup fields "sleeps" = some (.arr [])) →
      parse_event (some (.obj fields)) =
        .ok { user_id := uid, type := "unknown", id := none,
              trace_id := uid, raw_data := .obj fields }) := by
  refine ⟨rfl, ?_, ?_, ?_, ?_⟩
  · intro fields uid sf rest t hu hs hd
    simp [parse_event, hu, pickResource, populated, hs, pyLen,
      firstItemResource, summaryType, hd]
  · intro fields uid af rest hu hs ha
    rcases hs with hs | hs <;>
      simp [parse_event, hu, pickResource, populated, hs, ha, pyLen,
        firstItemResource]
  · intro fields uid sf rest hu hs ha hsl
    rcases hs with hs | hs <;> rcases ha with ha | ha <;>
      simp [parse_event, hu, pickResource, populated, hs, ha, hsl, pyLen,
        firstItemResource]
  · intro fields uid hu hs ha hsl
    rcases hs with hs | hs <;> rcases ha with ha | ha <;>
        rcases hsl with hsl | hsl <;>
      simp [parse_event, hu, pickResource, populated, hs, ha, hsl, pyLen,
        traceOf]

/-- Witness for C3: the quantified conjuncts instantiated at concrete
payloads (summaries taking priority over a populated activities collection;
activities over sleeps; sleeps alone; and the all-absent unknown case). -/
theorem garmin_parse_event_priority_witness :
    (parse_event (some (.obj [("userId", .str "u"),
        ("summaries", .arr [.obj [("summaryId", .str "s-1"),
          ("dataType", .str "EPOCH")]]),
        ("activities", .arr [.obj [("activityId", .str "a-1")]])])) =
      .ok { user_id := .str "u", type := "epoch.updated",
            id := some (.str "s-1"), trace_id := .str "s-1",
            raw_data := .obj [("userId", .str "u"),
              ("summaries", .arr [.obj [("summaryId", .str "s-1"),
                ("dataType", .str "EPOCH")]]),
              ("activities", .arr [.obj [("activityId", .str "a-1")]])] }) ∧
    (parse_event (some (.obj [("userId", .str "u"),
        ("summaries", .arr []),
        ("activities", .arr [.obj [("activityId", .str "a-1")]]),
        ("sleeps", .arr [.obj [("sleepId", .str "z-1")]])])) =
      .ok { user_id := .str "u", type := "activity.updated",
            id := some (.str "a-1"), trace_id := .str "a-1",
            raw_data := .obj [("userId", .str "u"),
              ("summaries", .arr []),
              ("activities", .arr [.obj [("activityId", .str "a-1")]]),
              ("sleeps", .arr [.obj [("sleepId", .str "z-1")]])] }) ∧
    (parse_event (some (.obj [("userId", .str "u"),
        ("sleeps", .arr [.obj [("sleepId", .str "z-1")]])])) =
      .ok { user_id := .str "u", type := "sleep.updated",
            id := some (.str "z-1"), trace_id := .str "z-1",
            raw_data := .obj [("userId", .str "u"),
              ("sleeps", .arr [.obj [("sleepId", .str "z-1")]])] }) ∧
    (parse_event (some (.obj [("userId", .str "u")])) =
      .ok { user_id := .str "u", type := "unknown", id := none,
            trace_id := .str "u", raw_data := .obj [("userId", .str "u")] }) := by
  refine ⟨?_, ?_, ?_, ?_⟩
  · exact garmin_parse_event_priority.2.1
      [("userId", .str "u"),
        ("summaries", .arr [.obj [("summaryId", .str "s-1"),
          ("dataType", .str "EPOCH")]]),
        ("activities", .arr [.obj [("activityId", .str "a-1")]])]
      (.str "u") [("summaryId", .str "s-1"), ("dataType", .str "EPOCH")] []
      "EPOCH" rfl rfl rfl
  · exact garmin_parse_event_priority.2.2.1
      [("userId", .str "u"), ("summaries", .arr []),
        ("activities", .arr [.obj [("activityId", .str "a-1")]]),
        ("sleeps", .arr [.obj [("sleepId", .str "z-1")]])]
      (.str "u") [("activityId", .str "a-1")] []
      rfl (Or.inr rfl) rfl
  · exact garmin_parse_event_priority.2.2.2.1
      [("userId", .str "u"), ("sleeps", .arr [.obj [("sleepId", .str "z-1")]])]
      (.str "u") [("sleepId", .str "z-1")] []
      rfl (Or.inl rfl) (Or.inl rfl) rfl
  · exact garmin_parse_event_priority.2.2.2.2
      [("userId", .str "u")] (.str "u")
      rfl (Or.inl rfl) (Or.inl rfl) (Or.inl rfl)

/- ===================== Claim C4 ===================== -/

/-- Counterexample to C4 as stated: the body `{"userId": null}` is valid
JSON on which `parse_event` succeeds, yet the returned `trace_id` is JSON
`null` — `resource_id or data["userId"]` falls back to the `userId` value,
which is `null` here, so `trace_id` is not "always present (never null)". -/
theorem garmin_parse_event_null_trace_counterexample :
    parse_event (some (.obj [("userId", Json.null)])) =
      .ok { user_id := .null, type := "unknown", id := none,
            trace_id := .null, raw_data := .obj [("userId", Json.null)] } := rfl

/-- C4 (amended): whenever `parse_event` succeeds, the returned `trace_id`
is the selected resource's id when that id is present and truthy, and the
payload's `userId` value otherwise (so `trace_id` can only be null when the
`userId` value itself is null); and parsing is deterministic — two calls on
the same raw body agree on `trace_id`. -/
theorem garmin_parse_event_trace_id (raw : Option Json) (ev : GarminEvent)
    (h : parse_event raw = .ok ev) :
    ev.trace_id = traceOf ev.id ev.user_id ∧
    (ev.user_id ≠ Json.null → ev.trace_id ≠ Json.null) ∧
    (∀ ev', parse_event raw = .ok ev' → ev'.trace_id = ev.trace_id) := by
  have hshape : ev.trace_id = traceOf ev.id ev.user_id := by
    cases raw with
    | none => simp [parse_event] at h
    | some data =>
      cases data with
      | obj fields =>
        revert h
        simp only [parse_event]
        cases alookup fields "userId" with
        | none => intro h; cases h
        | some uid =>
          cases hp : pickResource fields with
          | error e => intro h; cases h
          | ok pr =>
            obtain ⟨ty, rid⟩ := pr
            intro h
            cases h
            rfl
      | null => simp [parse_event] at h
      | bool b => simp [parse_event] at h
      | num n => simp [parse_event] at h
      | str s => simp [parse_event] at h
      | arr items => simp [parse_event] at h
  refine ⟨hshape, ?_, ?_⟩
  · intro hnn
    rw [hshape]
    exact traceOf_ne_null _ _ hnn
  · intro ev' h'
    rw [h] at h'
    cases h'
    rfl

/-- Witness for C4's amended theorem at the concrete C3 scenario body. -/
theorem garmin_parse_event_trace_id_witness :
    (Json.str "d-1" : Json) = traceOf (some (.str "d-1")) (.str "u1") ∧
    (Json.str "u1" ≠ Json.null → Json.str "d-1" ≠ Json.null) ∧
    (∀ ev', parse_event (some (.obj [("userId", .str "u1"),
        ("summaries", .arr [.obj [("summaryId", .str "d-1"),
          ("dataType", .str "DAILY")]])])) = .ok ev' →
      ev'.trace_id = Json.str "d-1") :=
  garmin_parse_event_trace_id
    (some (.obj [("userId", .str "u1"),
      ("summaries", .arr [.obj [("summaryId", .str "d-1"),
        ("dataType", .str "DAILY")]])]))
    { user_id := .str "u1", type := "daily.updated", id := some (.str "d-1"),
      trace_id := .str "d-1",
      raw_data := .obj [("userId", .str "u1"),
        ("summaries", .arr [.obj [("summaryId", .str "d-1"),
          ("dataType", .str "DAILY")]])] }
    rfl

/- ===================== Claim C2 ===================== -/

/-- C2 exactly as claimed (stated from the claim's words, for refutation):
for every response, 429 raises `RateLimited` (carrying some retry-after
value), 204 returns an empty result, any other non-200 raises
`VendorAPIError` with the status code, and 200 returns the decoded
payload. -/
def FetchClassificationAsClaimed : Prop :=
  ∀ (userId : String) (resp : HttpResponse) (pulls : List (String × String)),
    (resp.status = 429 → ∃ n : Int,
      (fetch_data (.ok ()) userId resp pulls).1 =
        .error (.rateLimited "Garmin API rate limit exceeded" "garmin" n)) ∧
    (resp.status = 204 →
      (fetch_data (.ok ()) userId resp pulls).1 = .ok (Json.arr [])) ∧
    (resp.status ≠ 429 → resp.status ≠ 204 → resp.status ≠ 200 → ∃ m,
      (fetch_data (.ok ()) userId resp pulls).1 =
        .error (.vendorAPI m "garmin" resp.status)) ∧
    (resp.status = 200 →
      (fetch_data (.ok ()) userId resp pulls).1 = .ok resp.body)

/-- Counterexample to C2 as stated: on a 429 whose `Retry-After` header is
an HTTP-date (RFC-legal, e.g. "Fri, 31 Dec 1999 23:59:59 GMT"),
`int(response.headers.get("Retry-After", 60))` raises `ValueError` before
`RateLimitError` is ever constructed, so the 429 branch of the claim
fails. -/
theorem garmin_fetch_data_classification_refuted : ¬ FetchClassificationAsClaimed := by
  intro h
  obtain ⟨h429, -, -, -⟩ :=
    h "u" ⟨429, some "Fri, 31 Dec 1999 23:59:59 GMT", "", .null⟩ []
  obtain ⟨n, hn⟩ := h429 rfl
  have hv : (fetch_data (.ok ()) "u"
      ⟨429, some "Fri, 31 Dec 1999 23:59:59 GMT", "", .null⟩ []).1 =
      .error .valueError := rfl
  rw [hv] at hn
  cases hn

/-- C2 (amended): the classification holds as claimed except on a 429 whose
`Retry-After` header is present but not an integer literal, where an
unhandled `ValueError` propagates instead of `RateLimited`: 429 with no
`Retry-After` raises `RateLimited` with the default 60; 429 with an
integer-parseable `Retry-After` raises `RateLimited` carrying that value;
204 returns the empty result; any other non-200 raises `VendorAPIError`
carrying the status code; 200 returns the decoded payload. -/
theorem garmin_fetch_data_classification (userId : String) (resp : HttpResponse)
    (pulls : List (String × String)) :
    (resp.status = 429 → resp.retryAfter = none →
      (fetch_data (.ok ()) userId resp pulls).1 =
        .error (.rateLimited "Garmin API rate limit exceeded" "garmin" 60)) ∧
    (∀ s n, resp.status = 429 → resp.retryAfter = some s → pyInt s = some n →
      (fetch_data (.ok ()) userId resp pulls).1 =
        .error (.rateLimited "Garmin API rate limit exceeded" "garmin" n)) ∧
    (∀ s, resp.status = 429 → resp.retryAfter = some s → pyInt s = none →
      (fetch_data (.ok ()) userId resp pulls).1 = .error .valueError) ∧
    (resp.status = 204 →
      (fetch_data (.ok ()) userId resp pulls).1 = .ok (Json.arr [])) ∧
    (resp.status ≠ 429 → resp.status ≠ 204 → resp.status ≠ 200 →
      (fetch_data (.ok ()) userId resp pulls).1 =
        .error (.vendorAPI
          ("Garmin API error: " ++ toString resp.status ++ " " ++ resp.text)
          "garmin" resp.status)) ∧
    (resp.status = 200 →
      (fetch_data (.ok ()) userId resp pulls).1 = .ok resp.body) := by
  refine ⟨?_, ?_, ?_, ?_, ?_, ?_⟩
  · intro h429 hra
    simp [fetch_data, h429, hra]
  · intro s n h429 hra hint
    simp [fetch_data, h429, hra, hint]
  · intro s h429 hra hint
    simp [fetch_data, h429, hra, hint]
  · intro h204
    have : resp.status ≠ 429 := by omega
    simp [fetch_data, h204, this]
  · intro h1 h2 h3
    simp [fetch_data, h1, h2, h3]
  · intro h200
    have h1 : resp.status ≠ 429 := by omega
    have h2 : resp.status ≠ 204 := by omega
    simp [fetch_data, h200, h1, h2]

/-- Witness for C2's amended classification, one concrete response per
branch. -/
theorem garmin_fetch_data_classification_witness :
    ((fetch_data (.ok ()) "u" ⟨429, none, "", .null⟩ []).1 =
      .error (.rateLimited "Garmin API rate limit exceeded" "garmin" 60)) ∧
    ((fetch_data (.ok ()) "u" ⟨429, some "30", "", .null⟩ []).1 =
      .error (.rateLimited "Garmin API rate limit exceeded" "garmin" 30)) ∧
    ((fetch_data (.ok ()) "u" ⟨429, some "soon", "", .null⟩ []).1 =
      .error .valueError) ∧
    ((fetch_data (.ok ()) "u" ⟨204, none, "", .null⟩ []).1 =
      .ok (Json.arr [])) ∧
    ((fetch_data (.ok ()) "u" ⟨500, none, "boom", .null⟩ []).1 =
      .error (.vendorAPI ("Garmin API error: " ++ toString 500 ++ " " ++ "boom")
        "garmin" 500)) ∧
    ((fetch_data (.ok ()) "u" ⟨200, none, "", .str "payload"⟩ []).1 =
      .ok (.str "payload")) :=
  ⟨(garmin_fetch_data_classification "u" ⟨429, none, "", .null⟩ []).1 rfl rfl,
   (garmin_fetch_data_classification "u" ⟨429, some "30", "", .null⟩ []).2.1
      "30" 30 rfl rfl (by decide),
   (garmin_fetch_data_classification "u" ⟨429, some "soon", "", .null⟩ []).2.2.1
      "soon" rfl rfl (by decide),
   (garmin_fetch_data_classification "u" ⟨204, none, "", .null⟩ []).2.2.2.1 rfl,
   (garmin_fetch_data_classification "u" ⟨500, none, "boom", .null⟩ []).2.2.2.2.1
      (by decide) (by decide) (by decide),
   (garmin_fetch_data_classification "u" ⟨200, none, "", .str "payload"⟩
      []).2.2.2.2.2 rfl⟩

/- ===================== Claim C9 ===================== -/

/-- C9: `GarminConnector.fetch_data` invokes `token_store.update_last_pull`
exactly when the response status is 200 — the recorded trace of last-pull
updates gains the `("garmin", user)` entry on a 200 response and is left
unchanged on 429, 204 and every other non-200 status (and on a failure of
the steps before the HTTP call). -/
theorem garmin_fetch_data_last_pull_frame (userId : String)
    (resp : HttpResponse) (pulls : List (String × String)) :
    ((fetch_data (.ok ()) userId resp pulls).2 =
      if resp.status = 200 then pulls ++ [("garmin", userId)] else pulls) ∧
    (∀ e, (fetch_data (.error e) userId resp pulls).2 = pulls) := by
  refine ⟨?_, fun e => rfl⟩
  by_cases h429 : resp.status = 429
  · simp only [fetch_data, h429]
    cases resp.retryAfter with
    | none => simp
    | some s => cases hp : pyInt s <;> simp [hp]
  · by_cases h204 : resp.status = 204
    · simp [fetch_data, h429, h204]
    · by_cases h200 : resp.status = 200
      · simp [fetch_data, h429, h204, h200]
      · simp [fetch_data, h429, h204, h200]

/- ===================== Claim C5 ===================== -/

/-- C5: `pull_data` resolves its start point as claimed — an explicit
(non-empty) `since` argument is used verbatim with `pull_type = "manual"`;
otherwise an existing cursor for the `(whoop, user)` key yields its
`last_sync_ts` with `pull_type = "incremental"`; otherwise the now-minus-7-days
value (the `now7` parameter) is used with `pull_type = "initial"`. -/
theorem whoop_pull_data_start_resolution (env : PullEnv) (cursors : CursorStore)
    (userId : String) (resourceTypes : List String) (sinceArg : Option String)
    (now7 now : String) :
    (∀ s, sinceArg = some s → s ≠ "" →
      (pull_data env cursors userId resourceTypes sinceArg now7 now).1.pull_type
          = "manual" ∧
      (pull_data env cursors userId resourceTypes sinceArg now7 now).1.since = s) ∧
    ((sinceArg = none ∨ sinceArg = some "") →
      (∀ c, alookup cursors ("whoop" ++ ":" ++ userId) = some c →
        (pull_data env cursors userId resourceTypes sinceArg now7 now).1.pull_type
            = "incremental" ∧
        (pull_data env cursors userId resourceTypes sinceArg now7 now).1.since
            = c.last_sync_ts) ∧
      (alookup cursors ("whoop" ++ ":" ++ userId) = none →
        (pull_data env cursors userId resourceTypes sinceArg now7 now).1.pull_type
            = "initial" ∧
        (pull_data env cursors userId resourceTypes sinceArg now7 now).1.since
            = now7)) := by
  refine ⟨?_, ?_⟩
  · intro s hs hne
    subst hs
    simp [pull_data, resolveSince, hne]
  · intro hfalsy
    refine ⟨?_, ?_⟩
    · intro c hc
      have hc' : alookup cursors ("whoop:" ++ userId) = some c := hc
      rcases hfalsy with h | h <;> subst h <;>
        simp [pull_data, resolveSince, hc']
    · intro hc
      have hc' : alookup cursors ("whoop:" ++ userId) = none := hc
      rcases hfalsy with h | h <;> subst h <;>
        simp [pull_data, resolveSince, hc']

/-- Witness for C5: the manual, incremental and initial branches at concrete
inputs (the incremental one on a store holding a cursor for the user). -/
theorem whoop_pull_data_start_resolution_witness :
    ((pull_data ⟨fun _ => .ok []⟩ [] "u" [] (some "2024-02-02T00:00:00Z")
        "n7" "now").1.pull_type = "manual" ∧
     (pull_data ⟨fun _ => .ok []⟩ [] "u" [] (some "2024-02-02T00:00:00Z")
        "n7" "now").1.since = "2024-02-02T00:00:00Z") ∧
    ((pull_data ⟨fun _ => .ok []⟩
        [("whoop:u", ⟨"whoop", "u", "2024-01-01T00:00:00Z", 5, none, "c", "m"⟩)]
        "u" [] none "n7" "now").1.pull_type = "incremental" ∧
     (pull_data ⟨fun _ => .ok []⟩
        [("whoop:u", ⟨"whoop", "u", "2024-01-01T00:00:00Z", 5, none, "c", "m"⟩)]
        "u" [] none "n7" "now").1.since = "2024-01-01T00:00:00Z") ∧
    ((pull_data ⟨fun _ => .ok []⟩ [] "u" [] none "n7" "now").1.pull_type
        = "initial" ∧
     (pull_data ⟨fun _ => .ok []⟩ [] "u" [] none "n7" "now").1.since = "n7") :=
  ⟨(whoop_pull_data_start_resolution ⟨fun _ => .ok []⟩ [] "u" []
      (some "2024-02-02T00:00:00Z") "n7" "now").1 "2024-02-02T00:00:00Z" rfl
      (by decide),
   ((whoop_pull_data_start_resolution ⟨fun _ => .ok []⟩
      [("whoop:u", ⟨"whoop", "u", "2024-01-01T00:00:00Z", 5, none, "c", "m"⟩)]
      "u" [] none "n7" "now").2 (Or.inl rfl)).1
      ⟨"whoop", "u", "2024-01-01T00:00:00Z", 5, none, "c", "m"⟩ rfl,
   ((whoop_pull_data_start_resolution ⟨fun _ => .ok []⟩ [] "u" [] none
      "n7" "now").2 (Or.inl rfl)).2 rfl⟩

/- ===================== Claim C6 ===================== -/

/-- C6: in `pull_data`, a rate-limit or vendor error while fetching one
resource type is recorded in that type's result entry, and every other
requested type still gets the entry its own fetch produced (no abort); the
sync cursor is advanced unconditionally after the loop with the wall-clock
time `now` as the new `last_sync_ts`; and `total_records` sums record counts
only over the resource types whose fetch succeeded. -/
theorem whoop_pull_data_error_isolation (env : PullEnv) (cursors : CursorStore)
    (userId : String) (resourceTypes : List String) (sinceArg : Option String)
    (now7 now : String) :
    (∀ rt, rt ∈ resolveTypes resourceTypes → validResourceType rt = true →
      ∀ e, env.fetch rt = .error e →
        alookup (pull_data env cursors userId resourceTypes sinceArg now7
          now).1.results rt = some (.err e)) ∧
    (∀ rt, rt ∈ resolveTypes resourceTypes → validResourceType rt = true →
      ∀ recs, env.fetch rt = .ok recs →
        alookup (pull_data env cursors userId resourceTypes sinceArg now7
          now).1.results rt = some (.ok recs.length recs)) ∧
    Option.map SyncCursor.last_sync_ts
      (alookup (pull_data env cursors userId resourceTypes sinceArg now7 now).2
        ("whoop" ++ ":" ++ userId)) = some now ∧
    (pull_data env cursors userId resourceTypes sinceArg now7
        now).1.total_records = successTotal env (resolveTypes resourceTypes) := by
  have hres : (pull_data env cursors userId resourceTypes sinceArg now7
      now).1.results = (pullLoop env (resolveTypes resourceTypes) [] 0).1 := rfl
  have htot : (pull_data env cursors userId resourceTypes sinceArg now7
      now).1.total_records = (pullLoop env (resolveTypes resourceTypes) [] 0).2 := rfl
  refine ⟨?_, ?_, ?_, ?_⟩
  · intro rt hmem hvalid e hfetch
    rw [hres, pullLoop_lookup_mem _ _ _ _ _ hmem]
    simp [entryFor, hvalid, hfetch]
  · intro rt hmem hvalid recs hfetch
    rw [hres, pullLoop_lookup_mem _ _ _ _ _ hmem]
    simp [entryFor, hvalid, hfetch]
  · simp [pull_data, update_cursor, alookup_dinsert_self]
  · rw [htot, pullLoop_total]
    simp

/-- Witness for C6: all four default resource types requested, the recovery
fetch rate-limited and the others succeeding; the error is recorded for
recovery, sleep still yields its entry, the cursor lands on `now`, and the
total counts only the successes. -/
theorem whoop_pull_data_error_isolation_witness :
    alookup (pull_data
        ⟨fun rt => if rt = "recovery" then .error "Rate limited by WHOOP"
          else .ok [Json.null]⟩ [] "u" [] none "n7" "now").1.results "recovery"
      = some (.err "Rate limited by WHOOP") ∧
    alookup (pull_data
        ⟨fun rt => if rt = "recovery" then .error "Rate limited by WHOOP"
          else .ok [Json.null]⟩ [] "u" [] none "n7" "now").1.results "sleep"
      = some (.ok 1 [Json.null]) ∧
    Option.map SyncCursor.last_sync_ts
      (alookup (pull_data
        ⟨fun rt => if rt = "recovery" then .error "Rate limited by WHOOP"
          else .ok [Json.null]⟩ [] "u" [] none "n7" "now").2
        ("whoop" ++ ":" ++ "u")) = some "now" ∧
    (pull_data
        ⟨fun rt => if rt = "recovery" then .error "Rate limited by WHOOP"
          else .ok [Json.null]⟩ [] "u" [] none "n7" "now").1.total_records
      = successTotal
          ⟨fun rt => if rt = "recovery" then .error "Rate limited by WHOOP"
            else .ok [Json.null]⟩ (resolveTypes []) :=
  ⟨(whoop_pull_data_error_isolation
      ⟨fun rt => if rt = "recovery" then .error "Rate limited by WHOOP"
        else .ok [Json.null]⟩ [] "u" [] none "n7" "now").1 "recovery"
      (by decide) (by decide) "Rate limited by WHOOP" rfl,
   (whoop_pull_data_error_isolation
      ⟨fun rt => if rt = "recovery" then .error "Rate limited by WHOOP"
        else .ok [Json.null]⟩ [] "u" [] none "n7" "now").2.1 "sleep"
      (by decide) (by decide) [Json.null] rfl,
   (whoop_pull_data_error_isolation
      ⟨fun rt => if rt = "recovery" then .error "Rate limited by WHOOP"
        else .ok [Json.null]⟩ [] "u" [] none "n7" "now").2.2.1,
   (whoop_pull_data_error_isolation
      ⟨fun rt => if rt = "recovery" then .error "Rate limited by WHOOP"
        else .ok [Json.null]⟩ [] "u" [] none "n7" "now").2.2.2⟩

/- ===================== Claim C10 ===================== -/

/-- C10: a resource type outside recovery/sleep/workout/cycle requested from
`pull_data` records the entry `{"error": "Unknown resource type"}` for that
type, the remaining recognized types are still fetched and recorded, the
unknown type contributes nothing to `total_records`, and the request still
returns status `"success"` and advances the cursor. -/
theorem whoop_pull_data_unknown_type (env : PullEnv) (cursors : CursorStore)
    (userId : String) (resourceTypes : List String) (sinceArg : Option String)
    (now7 now rt : String) (hmem : rt ∈ resolveTypes resourceTypes)
    (hinv : validResourceType rt = false) :
    alookup (pull_data env cursors userId resourceTypes sinceArg now7
        now).1.results rt = some (.err "Unknown resource type") ∧
    (∀ rt', rt' ∈ resolveTypes resourceTypes → validResourceType rt' = true →
      ∀ recs, env.fetch rt' = .ok recs →
        alookup (pull_data env cursors userId resourceTypes sinceArg now7
          now).1.results rt' = some (.ok recs.length recs)) ∧
    entryCount (entryFor env rt) = 0 ∧
    (pull_data env cursors userId resourceTypes sinceArg now7
        now).1.total_records = successTotal env (resolveTypes resourceTypes) ∧
    (pull_data env cursors userId resourceTypes sinceArg now7 now).1.status
        = "success" ∧
    Option.map SyncCursor.last_sync_ts
      (alookup (pull_data env cursors userId resourceTypes sinceArg now7 now).2
        ("whoop" ++ ":" ++ userId)) = some now := by
  have hres : (pull_data env cursors userId resourceTypes sinceArg now7
      now).1.results = (pullLoop env (resolveTypes resourceTypes) [] 0).1 := rfl
  have htot : (pull_data env cursors userId resourceTypes sinceArg now7
      now).1.total_records = (pullLoop env (resolveTypes resourceTypes) [] 0).2 := rfl
  refine ⟨?_, ?_, ?_, ?_, ?_, ?_⟩
  · rw [hres, pullLoop_lookup_mem _ _ _ _ _ hmem]
    simp [entryFor, hinv]
  · intro rt' hmem' hvalid recs hfetch
    rw [hres, pullLoop_lookup_mem _ _ _ _ _ hmem']
    simp [entryFor, hvalid, hfetch]
  · simp [entryFor, hinv, entryCount]
  · rw [htot, pullLoop_total]
    simp
  · rfl
  · simp [pull_data, update_cursor, alookup_dinsert_self]

/-- Witness for C10: requesting `["hrv", "sleep"]` — the unknown `"hrv"`
records the unknown-type error and contributes 0, `"sleep"` still succeeds
with its two records, the response status is `"success"` and the cursor is
advanced to `now`. -/
theorem whoop_pull_data_unknown_type_witness :
    alookup (pull_data ⟨fun _ => .ok [Json.null, Json.null]⟩ [] "u"
        ["hrv", "sleep"] none "n7" "now").1.results "hrv"
      = some (.err "Unknown resource type") ∧
    alookup (pull_data ⟨fun _ => .ok [Json.null, Json.null]⟩ [] "u"
        ["hrv", "sleep"] none "n7" "now").1.results "sleep"
      = some (.ok 2 [Json.null, Json.null]) ∧
    entryCount (entryFor ⟨fun _ => .ok [Json.null, Json.null]⟩ "hrv") = 0 ∧
    (pull_data ⟨fun _ => .ok [Json.null, Json.null]⟩ [] "u"
        ["hrv", "sleep"] none "n7" "now").1.total_records
      = successTotal ⟨fun _ => .ok [Json.null, Json.null]⟩
          (resolveTypes ["hrv", "sleep"]) ∧
    (pull_data ⟨fun _ => .ok [Json.null, Json.null]⟩ [] "u"
        ["hrv", "sleep"] none "n7" "now").1.status = "success" ∧
    Option.map SyncCursor.last_sync_ts
      (alookup (pull_data ⟨fun _ => .ok [Json.null, Json.null]⟩ [] "u"
        ["hrv", "sleep"] none "n7" "now").2 ("whoop" ++ ":" ++ "u"))
      = some "now" := by
  have h := whoop_pull_data_unknown_type ⟨fun _ => .ok [Json.null, Json.null]⟩
    [] "u" ["hrv", "sleep"] none "n7" "now" "hrv" (by decide) (by decide)
  exact ⟨h.1, h.2.1 "sleep" (by decide) (by decide) [Json.null, Json.null] rfl,
    h.2.2.1, h.2.2.2.1, h.2.2.2.2.1, h.2.2.2.2.2⟩

/- ===================== Claim C7 ===================== -/

/-- C7: `MockSyncState.update_cursor` creates the cursor on the first call
for a key (with `created_at = now`), and on later calls accumulates
`records_synced` onto the existing value, stamps `updated_at = now` and
preserves `created_at`; in particular two calls with records 5 then 3 yield
`records_synced = 8` with `created_at` unchanged between the calls. -/
theorem sync_update_cursor_accumulates :
    (∀ (store : CursorStore) (v u ts : String) (r : Int) (rid : Option String)
        (now : String),
      alookup store (v ++ ":" ++ u) = none →
        (update_cursor store v u ts r rid now).1.records_synced = r ∧
        (update_cursor store v u ts r rid now).1.created_at = now ∧
        (update_cursor store v u ts r rid now).1.updated_at = now ∧
        alookup (update_cursor store v u ts r rid now).2 (v ++ ":" ++ u) =
          some (update_cursor store v u ts r rid now).1) ∧
    (∀ (store : CursorStore) (v u ts : String) (r : Int) (rid : Option String)
        (now : String) (ex : SyncCursor),
      alookup store (v ++ ":" ++ u) = some ex →
        (update_cursor store v u ts r rid now).1.records_synced =
          ex.records_synced + r ∧
        (update_cursor store v u ts r rid now).1.created_at = ex.created_at ∧
        (update_cursor store v u ts r rid now).1.updated_at = now ∧
        alookup (update_cursor store v u ts r rid now).2 (v ++ ":" ++ u) =
          some (update_cursor store v u ts r rid now).1) ∧
    ((update_cursor (update_cursor [] "whoop" "u1" "t1" 5 none "n1").2
        "whoop" "u1" "t2" 3 none "n2").1.records_synced = 8 ∧
      (update_cursor (update_cursor [] "whoop" "u1" "t1" 5 none "n1").2
        "whoop" "u1" "t2" 3 none "n2").1.created_at =
        (update_cursor [] "whoop" "u1" "t1" 5 none "n1").1.created_at) := by
  refine ⟨?_, ?_, by decide, by decide⟩
  · intro store v u ts r rid now h
    simp [update_cursor, h, alookup_dinsert_self]
  · intro store v u ts r rid now ex h
    simp [update_cursor, h, alookup_dinsert_self]

/-- Witness for C7's quantified parts: a creation on an empty store and an
accumulating update over an existing cursor. -/
theorem sync_update_cursor_accumulates_witness :
    ((update_cursor [] "whoop" "u9" "t" 7 none "c0").1.records_synced = 7 ∧
     (update_cursor [] "whoop" "u9" "t" 7 none "c0").1.created_at = "c0" ∧
     (update_cursor [] "whoop" "u9" "t" 7 none "c0").1.updated_at = "c0" ∧
     alookup (update_cursor [] "whoop" "u9" "t" 7 none "c0").2
        ("whoop" ++ ":" ++ "u9") =
       some (update_cursor [] "whoop" "u9" "t" 7 none "c0").1) ∧
    ((update_cursor [("garmin:u9", ⟨"garmin", "u9", "t0", 2, none, "c1", "m1"⟩)]
        "garmin" "u9" "t2" 4 none "m2").1.records_synced =
      (⟨"garmin", "u9", "t0", 2, none, "c1", "m1"⟩ : SyncCursor).records_synced
        + 4 ∧
     (update_cursor [("garmin:u9", ⟨"garmin", "u9", "t0", 2, none, "c1", "m1"⟩)]
        "garmin" "u9" "t2" 4 none "m2").1.created_at =
      (⟨"garmin", "u9", "t0", 2, none, "c1", "m1"⟩ : SyncCursor).created_at ∧
     (update_cursor [("garmin:u9", ⟨"garmin", "u9", "t0", 2, none, "c1", "m1"⟩)]
        "garmin" "u9" "t2" 4 none "m2").1.updated_at = "m2" ∧
     alookup (update_cursor
        [("garmin:u9", ⟨"garmin", "u9", "t0", 2, none, "c1", "m1"⟩)]
        "garmin" "u9" "t2" 4 none "m2").2 ("garmin" ++ ":" ++ "u9") =
       some (update_cursor
        [("garmin:u9", ⟨"garmin", "u9", "t0", 2, none, "c1", "m1"⟩)]
        "garmin" "u9" "t2" 4 none "m2").1) :=
  ⟨sync_update_cursor_accumulates.1 [] "whoop" "u9" "t" 7 none "c0" rfl,
   sync_update_cursor_accumulates.2.1
     [("garmin:u9", ⟨"garmin", "u9", "t0", 2, none, "c1", "m1"⟩)]
     "garmin" "u9" "t2" 4 none "m2"
     ⟨"garmin", "u9", "t0", 2, none, "c1", "m1"⟩ rfl⟩

/- ===================== Claim C8 ===================== -/

/-- One recorded invocation of `update_cursor`. -/
structure CursorUpdate where
  vendor : String
  user : String
  lastSyncTs : String
  recordsSynced : Int
  lastResourceId : Option String
  now : String

/-- Replays a sequence of `update_cursor` calls against a store. -/
def runUpdates (store : CursorStore) : List CursorUpdate → CursorStore
  | [] => store
  | c :: rest =>
    runUpdates (update_cursor store c.vendor c.user c.lastSyncTs
      c.recordsSynced c.lastResourceId c.now).2 rest

/-- Value of `records_synced` stored at a key (0 when no cursor exists,
matching the accumulator's base in `update_cursor`). -/
def recordsAt (store : CursorStore) (key : String) : Int :=
  match alookup store key with
  | some c => c.records_synced
  | none => 0

theorem update_cursor_records_mono (store : CursorStore) (v u ts : String)
    (r : Int) (rid : Option String) (now key : String) (hr : 0 ≤ r) :
    recordsAt store key ≤ recordsAt (update_cursor store v u ts r rid now).2 key := by
  by_cases hk : (v ++ ":" ++ u) = key
  · subst hk
    simp only [update_cursor, recordsAt, alookup_dinsert_self]
    cases h : alookup store (v ++ ":" ++ u) <;> simp [h] <;> omega
  · simp only [update_cursor, recordsAt]
    rw [alookup_dinsert_ne _ _ _ _ hk]

/-- C8: across any sequence of `update_cursor` calls whose `records_synced`
arguments are record counts (non-negative, as every call site passes a list
length), the `records_synced` stored at any key never decreases. -/
theorem sync_records_synced_monotone (store : CursorStore)
    (calls : List CursorUpdate) (key : String)
    (h : ∀ c ∈ calls, 0 ≤ c.recordsSynced) :
    recordsAt store key ≤ recordsAt (runUpdates store calls) key := by
  induction calls generalizing store with
  | nil => exact le_refl _
  | cons c rest ih =>
    have h1 : 0 ≤ c.recordsSynced := h c (List.mem_cons_self _ _)
    have h2 : ∀ c' ∈ rest, 0 ≤ c'.recordsSynced :=
      fun c' hc' => h c' (List.mem_cons_of_mem _ hc')
    exact le_trans
      (update_cursor_records_mono store c.vendor c.user c.lastSyncTs
        c.recordsSynced c.lastResourceId c.now key h1)
      (ih _ h2)

/-- Witness for C8: two whoop updates with counts 5 then 3 never decrease
the stored `records_synced`. -/
theorem sync_records_synced_monotone_witness :
    recordsAt [] "whoop:u" ≤
      recordsAt (runUpdates [] [⟨"whoop", "u", "t1", 5, none, "n1"⟩,
        ⟨"whoop", "u", "t2", 3, none, "n2"⟩]) "whoop:u" :=
  sync_records_synced_monotone [] [⟨"whoop", "u", "t1", 5, none, "n1"⟩,
    ⟨"whoop", "u", "t2", 3, none, "n2"⟩] "whoop:u" (by
      intro c hc
      rcases List.mem_cons.mp hc with h | hc2
      · subst h; decide
      · rcases List.mem_cons.mp hc2 with h | h3
        · subst h; decide
        · cases h3)

end SynheartWear
